import Mathlib

/-!
Shallow embedding of the gc3apps front-end scripts (uzh/gc3apps) and proofs
about their fan-out / staging / retry / aggregation behaviour.

Conventions used throughout:
* host and container paths are modelled as lists of path segments
  (`List String`), or as plain strings where the source only concatenates;
* byte sizes and memory amounts are `Nat` (bytes); the gc3libs unit `GB`
  denotes 10^9 bytes;
* Python values that can be either an `int` or a tuple assigned to
  `execution.returncode` are modelled by the sum type `PyRC`;
* fallible code (Python exceptions) is modelled with `Option`: `none` marks
  the raising of an exception.
-/

namespace Gc3apps

/-! ## gkovesh.py — chunk planner -/

/-- One entry of `os.listdir(input_folder)` in gkovesh.py, with its
`os.path.getsize`. -/
structure FileEntry where
  name : String
  size : Nat
deriving DecidableEq

/-- The grouping loop of `GkoveshScript.new_tasks` (gkovesh.py lines
197-240), restricted to the sequence of `filelist` values passed to
`GkoveshApplication` at each emission site (the inner `range` loop only
replicates the same file list).  Faithful points: when
`total_size + size(data) <= limit` the file is appended and the running
total updated; otherwise the current `filelist` is emitted and reset to
`[]` with `total_size = 0`, and `data` itself is *not* carried over into
the new chunk; in that branch the source evaluates
`os.path.basename(filelist[0])`, which raises `IndexError` when
`filelist` is empty — modelled by `none`.  After the loop, a non-empty
trailing `filelist` is emitted. -/
def gkoveshChunkLoop (limit : Nat) :
    List FileEntry → List FileEntry → Nat → Option (List (List FileEntry))
  | [], filelist, _ =>
      some (if 0 < filelist.length then [filelist] else [])
  | data :: rest, filelist, total_size =>
      if total_size + data.size ≤ limit then
        gkoveshChunkLoop limit rest (filelist ++ [data]) (total_size + data.size)
      else
        match filelist with
        | [] => none
        | _ :: _ => (gkoveshChunkLoop limit rest [] 0).map (filelist :: ·)

/-- Chunk sequence produced by `GkoveshScript.new_tasks` for a directory
listing (in `os.listdir` order) and the effective byte limit
`self.data_group_size`. -/
def gkoveshChunks (limit : Nat) (files : List FileEntry) :
    Option (List (List FileEntry)) :=
  gkoveshChunkLoop limit files [] 0

/-! ## gkovesh.py — effective data-group size -/

/-- One directory entry as seen by `_get_data_group_size` (gkovesh.py lines
88-93).  `size` is `os.path.getsize(os.path.join(location, name))`;
`isFileAtLocation` is `os.path.isfile(os.path.join(location, name))` (what
the docstring "Return max file size in `location`" is about);
`isFileAtCwd` is `os.path.isfile(name)` — the test the code actually
performs, which resolves the bare entry name against the process working
directory, not against `location`. -/
structure DirEntry where
  name : String
  size : Nat
  isFileAtLocation : Bool
  isFileAtCwd : Bool
deriving DecidableEq

/-- `_get_data_group_size(location)` (gkovesh.py lines 88-93):
`max([getsize(join(location, d)) for d in listdir(location) if isfile(d)])`.
Note the filter is `os.path.isfile(data_size)` on the bare name, i.e.
`isFileAtCwd`.  Python's `max([])` raises `ValueError`, modelled by
`none`. -/
def getDataGroupSize (listing : List DirEntry) : Option Nat :=
  ((listing.filter (·.isFileAtCwd)).map (·.size)).max?

/-- `self.data_group_size = max(self.params.chunk, _get_data_group_size(...))`
from `GkoveshScript.parse_args` (gkovesh.py lines 189-195). -/
def dataGroupSize (chunk : Nat) (listing : List DirEntry) : Option Nat :=
  (getDataGroupSize listing).map (fun m => max chunk m)

/-! ## gbids.py — retry policy (`GbidsApplication.terminated`) -/

/-- A value held by `self.execution.returncode`: either the integer exit
status delivered by the execution framework, or the pair `(0, 99)` the
source assigns to mark a task for resubmission (gbids.py line 210).  The
two shapes are distinct Python values; in particular `(0, 99) == 137` is
`False`. -/
inductive PyRC where
  | intVal : Int → PyRC
  | pairVal : Int → Int → PyRC
deriving DecidableEq

/-- The gc3libs memory unit `GB`: 10^9 bytes. -/
def GBbytes : Nat := 1000 ^ 3

/-- `MAX_MEMORY = 32*GB` (gbids.py line 68), in bytes. -/
def MAX_MEMORY : Nat := 32 * GBbytes

/-- The state of one `GbidsApplication` that `terminated` reads and
writes: `self.execution.returncode` and `self.requested_memory`
(`none` models the attribute being `None`; `some 0` a zero quantity —
both are falsy in Python). -/
structure GbidsExecState where
  returncode : PyRC
  requested_memory : Option Nat
deriving DecidableEq

/-- `GbidsApplication.terminated` (gbids.py lines 201-210):

    if self.execution.returncode == 137:
        if self.requested_memory and self.requested_memory < MAX_MEMORY:
            self.requested_memory *= 4*GB
            self.execution.returncode = (0, 99)

`self.requested_memory and ...` is Python truthiness: `None` and a zero
amount short-circuit to no-op.  `4*GB` is the 4-gigabyte *quantity*
(4·10^9 bytes), not the scalar 4, so the update multiplies the byte
amount by 4·10^9. -/
def terminated (s : GbidsExecState) : GbidsExecState :=
  if s.returncode = PyRC.intVal 137 then
    match s.requested_memory with
    | some m =>
        if 0 < m ∧ m < MAX_MEMORY then
          { returncode := PyRC.pairVal 0 99,
            requested_memory := some (m * (4 * GBbytes)) }
        else s
    | none => s
  else s

/-! ## gbids.py — staging plan (`GbidsApplication.__init__`) -/

/-- A filesystem path, as a list of segments. -/
abbrev FSPath := List String

/-- `os.path.basename`: the last path segment. -/
def basename (p : FSPath) : String := p.getLastD ""

/-- `DEFAULT_BIDS_FOLDER = "$PWD/data/"` (gbids.py line 69). -/
def DEFAULT_BIDS_FOLDER : FSPath := ["$PWD", "data"]

/-- `DEFAULT_RESULT_FOLDER_REMOTE = "$PWD/output/"` (gbids.py line 71). -/
def DEFAULT_RESULT_FOLDER_REMOTE : FSPath := ["$PWD", "output"]

/-- Python `dict` assignment `d[k] = v` on a dict represented as an
association list: an existing entry for the key is replaced, otherwise
the pair is appended. -/
def dictSet (d : List (FSPath × FSPath)) (k v : FSPath) :
    List (FSPath × FSPath) :=
  if d.any (fun e => decide (e.1 = k)) then
    d.map (fun e => if e.1 = k then (k, v) else e)
  else d ++ [(k, v)]

/-- The five values substituted into `RUN_DOCKER_SCRIPT` by
`_make_temp_run_docker_file` (gbids.py lines 78-105): the template has
exactly the placeholders `data`, `output`, `container`, `analysis`,
`subject` and no others. -/
structure RunDockerScriptParams where
  data : FSPath
  output : FSPath
  container : String
  analysis : String
  subject : String
deriving DecidableEq

/-- What `GbidsApplication.__init__` hands to `Application.__init__`:
the staging bindings (`inputs`: host path ↦ container path), the declared
outputs, the rendered command, the executables, and the parameters of the
generated `run_docker.sh` wrapper. -/
structure GbidsPlan where
  inputs : List (FSPath × FSPath)
  outputs : List FSPath
  arguments : String
  executables : List FSPath
  script : RunDockerScriptParams
deriving DecidableEq

set_option linter.unusedVariables false in
/-- `GbidsApplication.__init__` (gbids.py lines 147-199).  In transfer
mode the subject directory, every control file and the local result
folder are bound under `$PWD/data/` resp. `$PWD/output/` by their
basenames; in shared mode no data binding is made.  The temporary
wrapper script (host path `run_script`, created in the session folder)
is always bound to `./run_docker.sh` and the command is
`"./run_docker.sh"`.  `freesurfer_license` arrives via
`extra_args['freesurfer_license']` and is stored as an attribute by the
framework; the body of `__init__` never reads it. -/
def gbidsApplicationInit (docker_run : String) (subject : FSPath)
    (subject_name : String) (control_files : List FSPath)
    (analysis_level : String) (transfer_data : Bool)
    (local_result_folder : FSPath) (data_output_dir : FSPath)
    (run_script : FSPath) (freesurfer_license : Option FSPath) :
    GbidsPlan :=
  let inputs : List (FSPath × FSPath) := []
  let inputs :=
    if transfer_data then
      let inputs := dictSet inputs subject
        (DEFAULT_BIDS_FOLDER ++ [basename subject])
      let inputs := control_files.foldl
        (fun acc element =>
          dictSet acc element (DEFAULT_BIDS_FOLDER ++ [basename element]))
        inputs
      dictSet inputs local_result_folder DEFAULT_RESULT_FOLDER_REMOTE
    else inputs
  let outputs := if transfer_data then [DEFAULT_RESULT_FOLDER_REMOTE] else []
  let run_docker_input_data :=
    if transfer_data then DEFAULT_BIDS_FOLDER else subject
  let run_docker_output_data :=
    if transfer_data then DEFAULT_RESULT_FOLDER_REMOTE else data_output_dir
  let inputs := dictSet inputs run_script ["run_docker.sh"]
  { inputs := inputs
    outputs := outputs
    arguments := "./run_docker.sh"
    executables := [["run_docker.sh"]]
    script :=
      { data := run_docker_input_data
        output := run_docker_output_data
        container := docker_run
        analysis := analysis_level
        subject := subject_name } }

/-! ## gbids.py — discovery (`_get_control_files`, `_get_subjects`,
`GbidsScript.new_tasks`, participant branch) -/

/-- Python `str.endswith`. -/
def endswith (s suffix : String) : Bool :=
  suffix.data.isSuffixOf s.data

/-- `_get_control_files(input_folder)` (gbids.py lines 122-131): every
entry of `os.listdir(input_folder)` whose name ends in `.json` or
`.tsv`, made absolute by joining it to the input folder. -/
def getControlFiles (input_folder : String) (listing : List String) :
    List String :=
  (listing.filter
      (fun control => endswith control ".json" || endswith control ".tsv")).map
    (fun control => input_folder ++ "/" ++ control)

/-- `_get_subjects(root_input_folder)` (gbids.py lines 111-119): the call
`BIDSLayout(root).get_subjects()` is a third-party library and is
modelled by the parameter `subjectLabels`; each label is turned into the
pair `(abspath(join(root, "sub-{label}")), label)`. -/
def getSubjects (root : String) (subjectLabels : List String) :
    List (String × String) :=
  subjectLabels.map (fun subject => (root ++ "/sub-" ++ subject, subject))

/-- The constructor arguments of one task created by the participant
branch of `GbidsScript.new_tasks` (gbids.py lines 313-346). -/
structure GbidsTaskArgs where
  docker_run : String
  subject_dir : String
  subject_name : String
  control_files : List String
  analysis_level : String
deriving DecidableEq

/-- Participant branch of `GbidsScript.new_tasks` (gbids.py lines
289-346): control files are computed once from the input-folder listing;
for each discovered subject one `GbidsApplication` is appended, with
`subject_dir` replaced by the whole input folder when data transfer is
off, and carrying the shared `control_files` list. -/
def gbidsNewTasksParticipant (bids_input_folder : String)
    (rootListing : List String) (subjectLabels : List String)
    (transfer_data : Bool) (bids_app analysis_level : String) :
    List GbidsTaskArgs :=
  let control_files := getControlFiles bids_input_folder rootListing
  (getSubjects bids_input_folder subjectLabels).map
    (fun sd_sn =>
      { docker_run := bids_app
        subject_dir := if transfer_data then sd_sn.1 else bids_input_folder
        subject_name := sd_sn.2
        control_files := control_files
        analysis_level := analysis_level })

/-! ## gbids.py — aggregation (`GbidsScript.after_main_loop`) -/

/-- A snapshot of the filesystem as a finite set of regular files:
path ↦ content.  Association list; `fsWrite` keeps at most one entry per
path. -/
abbrev FS := List (FSPath × String)

/-- Place (or overwrite) a file. -/
def fsWrite (fs : FS) (p : FSPath) (c : String) : FS :=
  (p, c) :: fs.filter (fun e => decide (e.1 ≠ p))

/-- Whether `p` lies strictly under the directory `dir`. -/
def underDir (dir p : FSPath) : Bool :=
  dir.isPrefixOf p && decide (p ≠ dir)

/-- `gc3libs.utils.movetree(src, dst)` — external framework call used at
gbids.py line 381: every file strictly under `src` is moved into `dst`
at the same relative path, merging into the existing tree and
overwriting files that are already there. -/
def movetree (src dst : FSPath) (fs : FS) : FS :=
  let moved := fs.filter (fun e => underDir src e.1)
  let rest := fs.filter (fun e => !underDir src e.1)
  moved.foldl (fun acc e => fsWrite acc (dst ++ e.1.drop src.length) e.2) rest

/-- `shutil.rmtree(dir)`: remove the directory and everything below it. -/
def rmtree (dir : FSPath) (fs : FS) : FS :=
  fs.filter (fun e => !dir.isPrefixOf e.1)

/-- The fields of one session task that `after_main_loop` reads.  As set
in `new_tasks` (gbids.py line 333), `data_output_dir` is
`join(abspath(bids_output_folder), subject_name)`. -/
structure GbidsSessionTask where
  subject_name : String
  returncode : PyRC
deriving DecidableEq

/-- `GbidsScript.after_main_loop` (gbids.py lines 371-384): for every
task of the session whose `execution.returncode == 0`, move the contents
of `task.data_output_dir = {bids_output_folder}/{subject_name}` into
`bids_output_folder` with `gc3libs.utils.movetree`, then
`shutil.rmtree(task.data_output_dir)`. -/
def afterMainLoop (bids_output_folder : FSPath)
    (session : List GbidsSessionTask) (fs : FS) : FS :=
  session.foldl
    (fun acc task =>
      if task.returncode = PyRC.intVal 0 then
        let data_output_dir := bids_output_folder ++ [task.subject_name]
        rmtree data_output_dir (movetree data_output_dir bids_output_folder acc)
      else acc)
    fs

/-! ## geager.py / gimc_preprocessing.py — `_get_subjects_config` -/

/-- `_get_subjects_config(input_folder)` (geager.py lines 58-73 and
gimc_preprocessing.py lines 58-73).  `listing` maps each entry `sbj` of
`os.listdir(input_folder)` to `os.listdir(join(input_folder, sbj))`.
For every file `f` of a subject folder ending in `.xml` the pair
`(sbj, f)` is appended; the trailing `continue` in the source is the
last statement of the inner loop body and therefore a no-op, so one pair
is appended per matching file, not per folder. -/
def getSubjectsConfig (listing : List (String × List String)) :
    List (String × String) :=
  listing.foldl
    (fun subjects sbj =>
      sbj.2.foldl
        (fun subjects f =>
          if endswith f ".xml" then subjects ++ [(sbj.1, f)] else subjects)
        subjects)
    []

/-! ## Concrete instances used by the theorems -/

/-- Input-folder listing for the effective-limit claims: two regular
files in the folder, of which only `small`'s bare name also names a
regular file in the process working directory. -/
def c9listing : List DirEntry :=
  [{ name := "big", size := 5000, isFileAtLocation := true, isFileAtCwd := false },
   { name := "small", size := 10, isFileAtLocation := true, isFileAtCwd := true }]

/-- A transfer-mode staging plan where the single control file's basename
equals the subject directory's basename. -/
def c4plan : GbidsPlan :=
  gbidsApplicationInit "poldracklab/fmriprep" ["in", "sub-01"] "sub-01"
    [["meta", "sub-01"]] "participant" true ["sess", "output"]
    ["out", "sub-01"] ["sess", "tmp-run"] none

/-- Output tree before aggregation: units `sub-01` and `sub-02` each
produced the relative output `app1/result.txt` under their per-unit
directory `{output_root}/{unit}`. -/
def c3fs : FS :=
  [(["results", "sub-01", "app1", "result.txt"], "A"),
   (["results", "sub-02", "app1", "result.txt"], "B")]

/-- A session whose two tasks both terminated with exit code 0. -/
def c3session : List GbidsSessionTask :=
  [{ subject_name := "sub-01", returncode := PyRC.intVal 0 },
   { subject_name := "sub-02", returncode := PyRC.intVal 0 }]

/-! ## Theorems -/

/-- C1 (code bug in `GkoveshScript.new_tasks`): the chunk loop does not
partition the input.  With limit 5 and files of sizes 5 and 5, the file
`f1` that triggers the chunk boundary is dropped — it occurs once in the
input but in no emitted chunk — contradicting "every input file appears
in exactly one chunk / no input file is ever dropped".  Moreover a first
file whose own size exceeds the limit is not emitted as a singleton
chunk: the source evaluates `filelist[0]` on an empty list and raises
`IndexError` (`none`). -/
theorem C1_chunk_planner_drops_file :
    gkoveshChunks 5 [⟨"f0", 5⟩, ⟨"f1", 5⟩] = some [[⟨"f0", 5⟩]] ∧
    ([⟨"f0", 5⟩, ⟨"f1", 5⟩] : List FileEntry).count ⟨"f1", 5⟩ = 1 ∧
    ((gkoveshChunks 5 [⟨"f0", 5⟩, ⟨"f1", 5⟩]).getD []).flatten.count ⟨"f1", 5⟩ = 0 ∧
    gkoveshChunks 3 [⟨"big", 5⟩] = none := by
  decide

/-- C9 (code bug in `_get_data_group_size`): the effective limit is not
`max(chunk, largest regular file of the input folder)`, because the
regular-file test `os.path.isfile(data_size)` resolves the bare entry
name against the process working directory instead of the input folder.
With chunk 100 and the folder holding regular files `big` (5000 bytes,
name absent from the CWD) and `small` (10 bytes, name also a file in the
CWD), the limit in effect is `max(100, 10) = 100`, not
`max(100, 5000) = 5000`, and the regular file `big` strictly exceeds it
— the oversized case is reachable.  When no entry name matches a CWD
file, `max([])` raises `ValueError` (`none`). -/
theorem C9_group_size_uses_wrong_directory :
    dataGroupSize 100 c9listing = some 100 ∧
    dataGroupSize 100 c9listing ≠ some 5000 ∧
    c9listing.any (fun e => e.isFileAtLocation && decide (100 < e.size)) = true ∧
    getDataGroupSize
      [{ name := "data1", size := 2000, isFileAtLocation := true,
         isFileAtCwd := false }] = none := by
  decide

/-- C2 (counterexample): escalation is not "multiply by the growth
factor clamped to the ceiling".  At the claim's own example — exit code
137 with 8 GB requested, ceiling `MAX_MEMORY = 32` GB — the code
executes `requested_memory *= 4*GB`, multiplying by the 4-gigabyte
quantity instead of the scalar 4, so the new request is
`8·10^9 · 4·10^9` bytes, not 32 GB, and it strictly exceeds the ceiling:
no clamping exists anywhere in `terminated`. -/
theorem C2_escalation_not_clamped_counterexample :
    terminated { returncode := PyRC.intVal 137,
                 requested_memory := some (8 * GBbytes) }
      ≠ { returncode := PyRC.pairVal 0 99,
          requested_memory := some (32 * GBbytes) } ∧
    (terminated { returncode := PyRC.intVal 137,
                  requested_memory := some (8 * GBbytes) }).requested_memory
      = some (8 * GBbytes * (4 * GBbytes)) ∧
    MAX_MEMORY < 8 * GBbytes * (4 * GBbytes) := by
  decide

/-- C2 (amended): whenever the exit code is 137 and the requested memory
is truthy and strictly below `MAX_MEMORY`, `terminated` multiplies the
requested byte amount by `4*GB = 4·10^9` — with no clamping to the
ceiling — and marks the task for resubmission by setting
`execution.returncode = (0, 99)`. -/
theorem C2_escalation_unclamped (m : Nat) (h0 : 0 < m)
    (hc : m < MAX_MEMORY) :
    terminated { returncode := PyRC.intVal 137, requested_memory := some m }
      = { returncode := PyRC.pairVal 0 99,
          requested_memory := some (m * (4 * GBbytes)) } := by
  simp [terminated, h0, hc]

/-- C2 witness: the amended escalation at the concrete 8 GB request. -/
theorem C2_escalation_unclamped_witness :
    terminated { returncode := PyRC.intVal 137,
                 requested_memory := some (8 * GBbytes) }
      = { returncode := PyRC.pairVal 0 99,
          requested_memory := some (8 * GBbytes * (4 * GBbytes)) } :=
  C2_escalation_unclamped (8 * GBbytes) (by decide) (by decide)

/-- C8 (confirmed): the retry transition is idempotent.  Applying
`terminated` a second time to the state left by the first application
changes nothing: once an escalation has fired, the returncode is the
pair `(0, 99)`, which no longer compares equal to 137, and in every
non-firing case the state was already left unchanged. -/
theorem C8_terminated_idempotent (s : GbidsExecState) :
    terminated (terminated s) = terminated s := by
  rcases s with ⟨rc, mem⟩
  by_cases h : rc = PyRC.intVal 137
  · subst h
    cases mem with
    | none => decide
    | some m =>
      by_cases h1 : 0 < m ∧ m < MAX_MEMORY
      · have e1 : terminated ⟨PyRC.intVal 137, some m⟩
            = ⟨PyRC.pairVal 0 99, some (m * (4 * GBbytes))⟩ := by
          simp [terminated, h1]
        rw [e1]
        simp [terminated]
      · have e1 : terminated ⟨PyRC.intVal 137, some m⟩
            = ⟨PyRC.intVal 137, some m⟩ := by
          simp [terminated, h1]
        rw [e1]
        exact e1
  · have e1 : terminated ⟨rc, mem⟩ = ⟨rc, mem⟩ := by simp [terminated, h]
    rw [e1]
    exact e1

/-- C8 witness: idempotence at the concrete escalating state (exit code
137, 8 GB requested). -/
theorem C8_terminated_idempotent_witness :
    terminated (terminated { returncode := PyRC.intVal 137,
                             requested_memory := some (8 * GBbytes) })
      = terminated { returncode := PyRC.intVal 137,
                     requested_memory := some (8 * GBbytes) } :=
  C8_terminated_idempotent { returncode := PyRC.intVal 137,
                             requested_memory := some (8 * GBbytes) }

/-- C10 (confirmed): on a terminal observation with exit code 137, a
task whose `requested_memory` is unset (`None`) or zero is never
escalated: `terminated` leaves the whole state — including the failed
returncode — unchanged. -/
theorem C10_unset_memory_never_escalates (mem : Option Nat)
    (h : mem = none ∨ mem = some 0) :
    terminated { returncode := PyRC.intVal 137, requested_memory := mem }
      = { returncode := PyRC.intVal 137, requested_memory := mem } := by
  rcases h with h | h <;> subst h <;> decide

/-- C10 witness: the unset-memory case at `requested_memory = None`. -/
theorem C10_unset_memory_never_escalates_witness :
    terminated { returncode := PyRC.intVal 137, requested_memory := none }
      = { returncode := PyRC.intVal 137, requested_memory := none } :=
  C10_unset_memory_never_escalates none (Or.inl rfl)

/-- C3 (counterexample): aggregation does not namespace destinations by
unit identifier.  With units `sub-01` and `sub-02` each having produced
`app1/result.txt` under their per-unit output directory,
`after_main_loop` moves both trees into the output root itself: the
final tree holds a single file `results/app1/result.txt` carrying the
second unit's content, and neither claimed destination
`app1/sub-01/result.txt` nor `app1/sub-02/result.txt` exists. -/
theorem C3_aggregation_overwrites :
    afterMainLoop ["results"] c3session c3fs
      = [(["results", "app1", "result.txt"], "B")] ∧
    ((afterMainLoop ["results"] c3session c3fs).map Prod.fst).count
        ["results", "app1", "sub-01", "result.txt"] = 0 ∧
    ((afterMainLoop ["results"] c3session c3fs).map Prod.fst).count
        ["results", "app1", "sub-02", "result.txt"] = 0 := by
  decide

/-- C3 (amended): for any contents produced by the two succeeded units
at the same relative path `app1/result.txt`, `after_main_loop` flattens
each per-unit directory `{root}/{unit}` into the output root, so both
land at the single destination `{root}/app1/result.txt` and the unit
processed later overwrites the earlier one (last-writer-wins), after
which the per-unit directories are removed. -/
theorem C3_aggregation_last_writer_wins (cA cB : String) :
    afterMainLoop ["results"]
      [{ subject_name := "sub-01", returncode := PyRC.intVal 0 },
       { subject_name := "sub-02", returncode := PyRC.intVal 0 }]
      [(["results", "sub-01", "app1", "result.txt"], cA),
       (["results", "sub-02", "app1", "result.txt"], cB)]
      = [(["results", "app1", "result.txt"], cB)] := by
  rfl

/-- C3 witness: the amended last-writer-wins behaviour at concrete
contents `"A"` and `"B"`. -/
theorem C3_aggregation_last_writer_wins_witness :
    afterMainLoop ["results"]
      [{ subject_name := "sub-01", returncode := PyRC.intVal 0 },
       { subject_name := "sub-02", returncode := PyRC.intVal 0 }]
      [(["results", "sub-01", "app1", "result.txt"], "A"),
       (["results", "sub-02", "app1", "result.txt"], "B")]
      = [(["results", "app1", "result.txt"], "B")] :=
  C3_aggregation_last_writer_wins "A" "B"

/-- C4 (counterexample): the staging planner performs no collision
check.  In transfer mode with a control file whose basename equals the
subject directory's basename, the produced plan simply contains two
bindings with the same container path `$PWD/data/sub-01` — the
container paths of a produced plan are not pairwise distinct, and no
`StagingError` is raised (no exception path exists in
`GbidsApplication.__init__`). -/
theorem C4_collision_not_detected :
    (c4plan.inputs.map Prod.snd).count (DEFAULT_BIDS_FOLDER ++ ["sub-01"]) = 2 ∧
    ¬ (c4plan.inputs.map Prod.snd).Nodup := by
  decide

/-- C4 (amended): on a container-path collision the planner neither
raises nor replaces: for any subject, colliding control file and
pairwise-distinct host paths, the plan retains both bindings — under
their distinct host keys — with the identical container path, and the
construction is total. -/
theorem C4_collision_bindings_both_kept
    (subject control lrf rs : FSPath)
    (h1 : subject ≠ control) (h2 : subject ≠ lrf) (h3 : control ≠ lrf)
    (h4 : subject ≠ rs) (h5 : control ≠ rs) (h6 : lrf ≠ rs)
    (hb : basename control = basename subject) :
    (gbidsApplicationInit "app" subject "s" [control] "participant" true
        lrf ["out"] rs none).inputs
      = [(subject, DEFAULT_BIDS_FOLDER ++ [basename subject]),
         (control, DEFAULT_BIDS_FOLDER ++ [basename subject]),
         (lrf, DEFAULT_RESULT_FOLDER_REMOTE),
         (rs, ["run_docker.sh"])] := by
  simp [gbidsApplicationInit, dictSet, h1, h2, h3, h4, h5, h6, hb]

/-- C4 witness: the amended collision behaviour at concrete paths. -/
theorem C4_collision_bindings_both_kept_witness :
    (gbidsApplicationInit "app" ["in", "sub-01"] "s" [["meta", "sub-01"]]
        "participant" true ["sess", "output"] ["out"] ["sess", "tmp-run"]
        none).inputs
      = [(["in", "sub-01"], DEFAULT_BIDS_FOLDER ++ ["sub-01"]),
         (["meta", "sub-01"], DEFAULT_BIDS_FOLDER ++ ["sub-01"]),
         (["sess", "output"], DEFAULT_RESULT_FOLDER_REMOTE),
         (["sess", "tmp-run"], ["run_docker.sh"])] :=
  C4_collision_bindings_both_kept ["in", "sub-01"] ["meta", "sub-01"]
    ["sess", "output"] ["sess", "tmp-run"] (by decide) (by decide) (by decide)
    (by decide) (by decide) (by decide) (by decide)

/-- C5 (code bug in `GbidsApplication.__init__`): the optional
freesurfer license file is never staged.  The entire plan — bindings,
outputs, rendered command and wrapper-script parameters — is invariant
in the `freesurfer_license` argument: supplying a license adds no
binding and no command-line reference, although the changelog documents
"support for freesurfer license file to be passed as part of the docker
invocation" and the constant `DEFAULT_FREESURFER_LICENSE_FILE` exists
unused. -/
theorem C5_license_never_staged (docker_run : String) (subject : FSPath)
    (subject_name : String) (control_files : List FSPath)
    (analysis_level : String) (transfer_data : Bool)
    (local_result_folder data_output_dir run_script : FSPath)
    (lic : Option FSPath) :
    gbidsApplicationInit docker_run subject subject_name control_files
        analysis_level transfer_data local_result_folder data_output_dir
        run_script lic
      = gbidsApplicationInit docker_run subject subject_name control_files
        analysis_level transfer_data local_result_folder data_output_dir
        run_script none := rfl

/-- C5 witness: the license invariance at a concrete invocation with a
supplied license file. -/
theorem C5_license_never_staged_witness :
    gbidsApplicationInit "app" ["in", "sub-01"] "sub-01" [] "participant"
        false ["sess", "output"] ["out", "sub-01"] ["sess", "tmp-run"]
        (some ["home", "license.txt"])
      = gbidsApplicationInit "app" ["in", "sub-01"] "sub-01" [] "participant"
        false ["sess", "output"] ["out", "sub-01"] ["sess", "tmp-run"]
        none :=
  C5_license_never_staged "app" ["in", "sub-01"] "sub-01" [] "participant"
    false ["sess", "output"] ["out", "sub-01"] ["sess", "tmp-run"]
    (some ["home", "license.txt"])

/-- C7 (confirmed): in the participant branch of
`GbidsScript.new_tasks`, the produced units are exactly the discovered
subjects — one task per subject label, so no control file becomes a
unit — and every task carries the same shared control-file list
`_get_control_files(bids_input_folder)`, the top-level entries ending in
`.json` or `.tsv`. -/
theorem C7_control_files_shared (bids_input_folder : String)
    (rootListing subjectLabels : List String) (transfer_data : Bool)
    (bids_app analysis_level : String) :
    (gbidsNewTasksParticipant bids_input_folder rootListing subjectLabels
        transfer_data bids_app analysis_level).map (·.subject_name)
      = subjectLabels ∧
    ∀ t ∈ gbidsNewTasksParticipant bids_input_folder rootListing
        subjectLabels transfer_data bids_app analysis_level,
      t.control_files = getControlFiles bids_input_folder rootListing := by
  constructor
  · simp only [gbidsNewTasksParticipant, getSubjects, List.map_map]
    exact List.map_id' subjectLabels
  · intro t ht
    simp [gbidsNewTasksParticipant, getSubjects] at ht
    obtain ⟨s, hs, rfl⟩ := ht
    rfl

/-- C7 witness: a root with five subject folders and two top-level
`.json` control files yields five units, each carrying the same two
control files. -/
theorem C7_control_files_shared_witness :
    ((gbidsNewTasksParticipant "/data"
        ["sub-01", "sub-02", "sub-03", "sub-04", "sub-05",
         "m1.json", "m2.json"]
        ["01", "02", "03", "04", "05"] false "app" "participant").map
          (·.subject_name) = ["01", "02", "03", "04", "05"]) ∧
    (gbidsNewTasksParticipant "/data"
        ["sub-01", "sub-02", "sub-03", "sub-04", "sub-05",
         "m1.json", "m2.json"]
        ["01", "02", "03", "04", "05"] false "app" "participant").length
      = 5 ∧
    ∀ t ∈ gbidsNewTasksParticipant "/data"
        ["sub-01", "sub-02", "sub-03", "sub-04", "sub-05",
         "m1.json", "m2.json"]
        ["01", "02", "03", "04", "05"] false "app" "participant",
      t.control_files = ["/data/m1.json", "/data/m2.json"] := by
  have h := C7_control_files_shared "/data"
    ["sub-01", "sub-02", "sub-03", "sub-04", "sub-05", "m1.json", "m2.json"]
    ["01", "02", "03", "04", "05"] false "app" "participant"
  refine ⟨h.1, by decide, fun t ht => (h.2 t ht).trans (by decide)⟩

/-- C6 (code bug in `_get_subjects_config` of geager.py and
gimc_preprocessing.py): discovery is not duplicate-free.  A subject
folder containing two `.xml` configuration files is appended once per
matching file — the trailing `continue` is a no-op where a `break` was
evidently intended — so the same unit identifier appears twice. -/
theorem C6_duplicate_subject_units :
    getSubjectsConfig [("sbjA", ["a.xml", "b.xml"])]
      = [("sbjA", "a.xml"), ("sbjA", "b.xml")] ∧
    ¬ ((getSubjectsConfig [("sbjA", ["a.xml", "b.xml"])]).map
        Prod.fst).Nodup := by
  decide

end Gc3apps
